import Mathlib

/-!
Verification of the observability and feedback-tracking pipeline of the
cats-and-dogs inference gateway (src/api/routes.py and
src/monitoring/prometheus_metrics.py), as a shallow embedding.

External collaborators (the opaque predictor, the SQLAlchemy session, the
Prometheus client, the Discord notifier) are modelled as environment values:
each fallible call site receives, as input, whether that call raises and with
which message.  Machine state (feedback store, metric counters, notifier
state) is passed explicitly.
-/

/-- One row of the feedback store (table PredictionFeedback), with the fields
routes.py reads and writes.  Probabilities are stored as exact rationals in
place of the floating-point percentages. -/
structure PredictionRecord where
  id : Nat
  timestamp : Nat
  success : Bool
  prediction_result : String
  proba_cat : Rat
  proba_dog : Rat
  inference_time_ms : Nat
  rgpd_consent : Bool
  filename : Option String
  user_feedback : Option Int
  user_comment : Option String
  deriving DecidableEq

/-- The feedback store: records kept newest first, a monotone id supply and a
monotone clock used for creation timestamps. -/
structure Store where
  records : List PredictionRecord
  nextId : Nat
  clock : Nat
  deriving DecidableEq

/-- State of the Prometheus metrics of src/monitoring/prometheus_metrics.py:
`prediction_labels` logs one entry per `prediction_counter.labels(label).inc()`,
`usage` is `usage_counter`, `latency_obs` logs the observations of
`inference_time_histogram` (in seconds), `feedback_events` logs one entry per
`feedback_counter.labels(type=...).inc()`, `db_gauge` is
`database_status_gauge`. -/
structure Metrics where
  prediction_labels : List String
  usage : Nat
  latency_obs : List Rat
  feedback_events : List String
  db_gauge : Nat
  deriving DecidableEq

/-- `track_inference_time` of prometheus_metrics.py: observes
`inference_time_ms / 1000` on the latency histogram. -/
def track_inference_time (inference_time_ms : Rat) (m : Metrics) : Metrics :=
  { m with latency_obs := (inference_time_ms / 1000) :: m.latency_obs }

/-- `track_feedback` of prometheus_metrics.py: increments the feedback counter
labelled with `feedback_type`. -/
def track_feedback (feedback_type : String) (m : Metrics) : Metrics :=
  { m with feedback_events := feedback_type :: m.feedback_events }

/-- `track_prediction` of prometheus_metrics.py: increments the prediction
counter labelled with `label` and the global usage counter. -/
def track_prediction (label : String) (m : Metrics) : Metrics :=
  { m with prediction_labels := label :: m.prediction_labels,
           usage := m.usage + 1 }

/-- `update_db_status` of prometheus_metrics.py: sets the database gauge to 1
when connected, 0 otherwise. -/
def update_db_status (connected : Bool) (m : Metrics) : Metrics :=
  { m with db_gauge := if connected then 1 else 0 }

/-- Modelled from the spec: `FeedbackService.save_prediction_feedback`
(src/database/feedback_service.py is not among the given sources).  Per spec
section 4.1 and section 3 it constructs and durably persists a new record with
an opaque, unique, monotonically assigned id and a creation timestamp set
once, and returns the record.  Persistence failure propagates to the caller;
in this embedding the possibility of failure is an environment choice made at
each call site of routes.py.  Records are prepended so that `records` is
ordered newest first. -/
def FeedbackService.save_prediction_feedback (st : Store)
    (inference_time_ms : Nat) (success : Bool) (prediction_result : String)
    (proba_cat proba_dog : Rat) (rgpd_consent : Bool) (filename : Option String)
    (user_feedback : Option Int) (user_comment : Option String) :
    Store × PredictionRecord :=
  let record : PredictionRecord :=
    { id := st.nextId, timestamp := st.clock, success := success,
      prediction_result := prediction_result, proba_cat := proba_cat,
      proba_dog := proba_dog, inference_time_ms := inference_time_ms,
      rgpd_consent := rgpd_consent, filename := filename,
      user_feedback := user_feedback, user_comment := user_comment }
  ({ records := record :: st.records, nextId := st.nextId + 1,
     clock := st.clock + 1 }, record)

/-- Modelled from the spec: `FeedbackService.get_recent_predictions`
(src/database/feedback_service.py is not among the given sources).  Per spec
section 4.1, `get_recent(limit)` returns an ordered sequence of records,
newest first, bounded by `limit`. -/
def FeedbackService.get_recent_predictions (st : Store) (limit : Nat) :
    List PredictionRecord :=
  st.records.take limit

/-- The outcome the opaque predictor returns on success
(`result` in predict_api): a label, a confidence and the two class
probabilities (fractions in [0,1], as in predictor output). -/
structure PredictResult where
  prediction : String
  confidence : Rat
  prob_cat : Rat
  prob_dog : Rat
  deriving DecidableEq

/-- The two attributes of the FastAPI UploadFile that predict_api reads. -/
structure UploadFile where
  filename : String
  content_type : String
  deriving DecidableEq

deriving instance DecidableEq for Except

/-- Environment of one /api/predict request: the joint outcome of
`file.read()` and `predictor.predict` (an error means one of them raised),
the two timer readings, and whether each fallible collaborator call raises
and with which message. -/
structure PredictEnv where
  predictOutcome : Except String PredictResult
  inference_time_ms : Nat
  inference_time_ms_err : Nat
  trackPredictionRaises : Option String
  trackInferenceTimeRaises : Option String
  successSaveRaises : Option String
  failureSaveRaises : Bool
  deriving DecidableEq

/-- A FastAPI endpoint result: a 200 body or an HTTPException with status
code and detail string. -/
inductive ApiResponse (α : Type) where
  | ok : α → ApiResponse α
  | httpError : Nat → String → ApiResponse α
  deriving DecidableEq

/-- The JSON body predict_api returns on success (`response_data`); the
formatted percentage strings are kept as their underlying rational values. -/
structure PredictResponse where
  filename : String
  prediction : String
  confidence : Rat
  prob_cat : Rat
  prob_dog : Rat
  inference_time_ms : Nat
  feedback_id : Nat
  deriving DecidableEq

/-- Character-list recursion behind `startswith`. -/
def startswithChars : List Char → List Char → Bool
  | _, [] => true
  | [], _ :: _ => false
  | c :: cs, p :: ps => c == p && startswithChars cs ps

/-- Python `str.startswith`, over the underlying character lists (kept
kernel-executable, unlike the well-founded recursion behind Lean's own
`String.startsWith`). -/
def startswith (s pre : String) : Bool :=
  startswithChars s.data pre.data

/-- The body of the `try:` block of predict_api (routes.py lines 213-259).
An error result carries the raised message together with the store and
metrics state at the moment of the raise. -/
def predict_attempt (enable_prometheus : Bool) (file : UploadFile)
    (rgpd_consent : Bool) (env : PredictEnv) (st : Store) (m : Metrics) :
    Except (String × Store × Metrics) (PredictResponse × Store × Metrics) :=
  match env.predictOutcome with
  | .error e => .error (e, st, m)
  | .ok result =>
    match (if enable_prometheus then env.trackPredictionRaises else none) with
    | some e => .error (e, st, m)
    | none =>
      let m1 := if enable_prometheus then
          track_prediction result.prediction.toLower m
        else m
      match (if enable_prometheus then env.trackInferenceTimeRaises else none) with
      | some e => .error (e, st, m1)
      | none =>
        let m2 := if enable_prometheus then
            track_inference_time (env.inference_time_ms : Rat) m1
          else m1
        let proba_cat := result.prob_cat * 100
        let proba_dog := result.prob_dog * 100
        match env.successSaveRaises with
        | some e => .error (e, st, m2)
        | none =>
          let saved := FeedbackService.save_prediction_feedback st
            env.inference_time_ms true result.prediction.toLower
            proba_cat proba_dog rgpd_consent
            (if rgpd_consent then some file.filename else none) none none
          .ok ({ filename := file.filename,
                 prediction := result.prediction,
                 confidence := result.confidence,
                 prob_cat := result.prob_cat,
                 prob_dog := result.prob_dog,
                 inference_time_ms := env.inference_time_ms,
                 feedback_id := saved.2.id }, saved.1, m2)

/-- `predict_api` of routes.py: preflight checks (503 when the model is not
loaded, 400 when the upload is not an image), then the `try:` body; the
`except Exception` handler writes a failure record best effort (a second
failure is swallowed) and raises a 500 carrying the original error text. -/
def predict_api (enable_prometheus : Bool) (model_loaded : Bool)
    (file : UploadFile) (rgpd_consent : Bool) (env : PredictEnv)
    (st : Store) (m : Metrics) : ApiResponse PredictResponse × Store × Metrics :=
  if model_loaded = false then
    (.httpError 503 ("Modèle non disponible"), st, m)
  else if startswith file.content_type ("image/") = false then
    (.httpError 400 ("Format d\x27image invalide"), st, m)
  else
    match predict_attempt enable_prometheus file rgpd_consent env st m with
    | .ok (resp, st1, m1) => (.ok resp, st1, m1)
    | .error (e, st1, m1) =>
      let st2 :=
        if env.failureSaveRaises then st1
        else (FeedbackService.save_prediction_feedback st1
          env.inference_time_ms_err false ("error") 0 0 false none none
          (some e)).1
      (.httpError 500 ("Erreur de prédiction: " ++ e), st2, m1)

/-- Environment of one /api/update-feedback request: whether `track_feedback`
raises and whether `db.commit()` raises, each with its message. -/
structure FeedbackEnv where
  trackFeedbackRaises : Option String
  commitRaises : Option String
  deriving DecidableEq

/-- The record lookup `db.query(PredictionFeedback).filter(id == feedback_id)
.first()` over the embedded store. -/
def findRecord (st : Store) (fid : Nat) : Option PredictionRecord :=
  st.records.find? (fun r => r.id == fid)

/-- Replacing the record with id `fid` in the store (the committed effect of
the ORM mutations of update_feedback). -/
def setRecord (st : Store) (fid : Nat) (r : PredictionRecord) : Store :=
  { st with records := st.records.map (fun x => if x.id == fid then r else x) }

/-- `update_feedback` of routes.py: 404 when the id is unknown, 403 when the
record has `rgpd_consent` false; otherwise the ORM object is mutated and
`track_feedback` is called (when Prometheus is enabled and `user_feedback`
was supplied) before `db.commit()`; any non-HTTP exception triggers
`db.rollback()` (store unchanged) and a 500 with the error text.  Python
truthiness of `if user_comment:` is modelled as the comment being present and
non-empty. -/
def update_feedback (enable_prometheus : Bool) (feedback_id : Nat)
    (user_feedback : Option Int) (user_comment : Option String)
    (env : FeedbackEnv) (st : Store) (m : Metrics) :
    ApiResponse Unit × Store × Metrics :=
  match findRecord st feedback_id with
  | none => (.httpError 404 ("Enregistrement de feedback non trouvé"), st, m)
  | some record =>
    if record.rgpd_consent = false then
      (.httpError 403
        ("Consentement RGPD non accepté. Impossible de stocker le feedback."),
       st, m)
    else
      match (if enable_prometheus && user_feedback.isSome then
          env.trackFeedbackRaises else none) with
      | some e =>
        (.httpError 500 ("Erreur lors de la mise à jour: " ++ e), st, m)
      | none =>
        let m1 :=
          match user_feedback with
          | some v =>
            if enable_prometheus then
              track_feedback (if v == 1 then "positive" else "negative") m
            else m
          | none => m
        let record1 :=
          match user_feedback with
          | some v => { record with user_feedback := some v }
          | none => record
        let record2 :=
          match user_comment with
          | some c =>
            if c = "" then record1 else { record1 with user_comment := some c }
          | none => record1
        match env.commitRaises with
        | some e =>
          (.httpError 500 ("Erreur lors de la mise à jour: " ++ e), st, m1)
        | none => (.ok (), setRecord st feedback_id record2, m1)

/-- One element of the JSON list returned by /api/recent-predictions; the
timestamp keeps its numeric value in place of the ISO string. -/
structure RecentEntry where
  id : Nat
  timestamp : Option Nat
  prediction_result : String
  proba_cat : Rat
  proba_dog : Rat
  inference_time_ms : Nat
  success : Bool
  rgpd_consent : Bool
  user_feedback : Option Int
  filename : Option String
  deriving DecidableEq

/-- `get_recent_predictions` of routes.py: serializes the recent records,
redacting `filename` to null unless the record has `rgpd_consent` true, and
returns the list together with its length. -/
def get_recent_predictions_api (st : Store) (limit : Nat) :
    List RecentEntry × Nat :=
  let results := (FeedbackService.get_recent_predictions st limit).map
    (fun pred =>
      { id := pred.id, timestamp := some pred.timestamp,
        prediction_result := pred.prediction_result,
        proba_cat := pred.proba_cat, proba_dog := pred.proba_dog,
        inference_time_ms := pred.inference_time_ms, success := pred.success,
        rgpd_consent := pred.rgpd_consent, user_feedback := pred.user_feedback,
        filename := if pred.rgpd_consent then pred.filename else none })
  (results, results.length)

/-- Internal state of the Discord notifier: whether the database is currently
believed disconnected. -/
structure NotifierState where
  dbDisconnected : Bool
  deriving DecidableEq

/-- Modelled from the spec: `alert_database_disconnected`
(src/monitoring/discord_notifier.py is not among the given sources).  Per
spec section 4.3 the database-disconnected alert is a state-change
notification, fired once per transition into the disconnected state observed
during a health probe, not on every probe; so the notifier fires only when it
still believed the database connected, and records the disconnection.
Returns the new notifier state and whether an alert was fired. -/
def alert_database_disconnected (ns : NotifierState) : NotifierState × Bool :=
  if ns.dbDisconnected then (ns, false)
  else ({ dbDisconnected := true }, true)

/-- Environment of one /health request: the outcome of the
`db.execute(text("SELECT 1"))` probe, and whether the Discord alert delivery
and the Prometheus gauge update raise. -/
structure HealthEnv where
  dbProbe : Except String Unit
  alertRaises : Option String
  promUpdateRaises : Option String
  deriving DecidableEq

/-- The JSON body returned by /health. -/
structure HealthResponse where
  status : String
  model_loaded : Bool
  database : String
  monitoring_prometheus : Bool
  monitoring_discord : Bool
  deriving DecidableEq

/-- `health_check` of routes.py: probes the database; on failure sets the
status string to the error text and, when Discord is enabled, fires the
disconnect alert inside its own try/except (a delivery failure is only
logged); then, when Prometheus is enabled, updates the database gauge inside
its own try/except; finally reports status healthy or degraded by comparing
the status string with "connected".  Also returns whether an alert was
fired. -/
def health_check (enable_prometheus enable_discord model_loaded : Bool)
    (env : HealthEnv) (m : Metrics) (ns : NotifierState) :
    HealthResponse × Metrics × NotifierState × Bool :=
  let probe : String × Bool × NotifierState × Bool :=
    match env.dbProbe with
    | .ok _ => ("connected", true, ns, false)
    | .error e =>
      let s := "error: " ++ e
      if enable_discord then
        match env.alertRaises with
        | some _ => (s, false, ns, false)
        | none =>
          let fired := alert_database_disconnected ns
          (s, false, fired.1, fired.2)
      else (s, false, ns, false)
  match probe with
  | (db_status, db_connected, ns1, fired) =>
    let m1 :=
      if enable_prometheus then
        match env.promUpdateRaises with
        | some _ => m
        | none => update_db_status db_connected m
      else m
    ({ status := if db_status = "connected" then "healthy" else "degraded",
       model_loaded := model_loaded,
       database := db_status,
       monitoring_prometheus := enable_prometheus,
       monitoring_discord := enable_discord }, m1, ns1, fired)

/-- Running a sequence of /health requests, threading metrics and notifier
state, and counting how many database-disconnected alerts were fired. -/
def run_health (ep ed ml : Bool) :
    List HealthEnv → Metrics → NotifierState → Metrics × NotifierState × Nat
  | [], m, ns => (m, ns, 0)
  | env :: rest, m, ns =>
    let step := health_check ep ed ml env m ns
    let tail := run_health ep ed ml rest step.2.1 step.2.2.1
    (tail.1, tail.2.1, (if step.2.2.2 then 1 else 0) + tail.2.2)

/-- Whether the database probe of a health environment succeeds. -/
def probeOk (env : HealthEnv) : Bool :=
  match env.dbProbe with
  | .ok _ => true
  | .error _ => false

/-- Number of transitions from the connected into the disconnected state, as
observed by the successive database probes of a sequence of health requests,
given the state observed before the first probe. -/
def countTransitions : Bool → List HealthEnv → Nat
  | _, [] => 0
  | prev, env :: rest =>
    (if prev && !probeOk env then 1 else 0) + countTransitions (probeOk env) rest

/-- The empty feedback store. -/
def emptyStore : Store := { records := [], nextId := 0, clock := 0 }

/-- Freshly initialized metrics: all counters zero, gauge zero. -/
def emptyMetrics : Metrics :=
  { prediction_labels := [], usage := 0, latency_obs := [],
    feedback_events := [], db_gauge := 0 }

/-- Whether an endpoint result is a 200 body. -/
def isOk {α : Type} : ApiResponse α → Bool
  | .ok _ => true
  | .httpError _ _ => false

/-- The filename field of a successful /api/predict response body, when the
response is a 200. -/
def respFilename : ApiResponse PredictResponse → Option String
  | .ok p => some p.filename
  | .httpError _ _ => none

/-! ## Sample values used by the concrete instantiations -/

/-- A failure-path record without consent, as written by the except handler
of predict_api. -/
def noConsentRecord : PredictionRecord :=
  { id := 0, timestamp := 0, success := false, prediction_result := "error",
    proba_cat := 0, proba_dog := 0, inference_time_ms := 3,
    rgpd_consent := false, filename := none, user_feedback := none,
    user_comment := some ("boom") }

/-- A store holding only `noConsentRecord`. -/
def noConsentStore : Store :=
  { records := [noConsentRecord], nextId := 1, clock := 1 }

/-- A success-path record with consent. -/
def consentRecord : PredictionRecord :=
  { id := 0, timestamp := 0, success := true, prediction_result := "cat",
    proba_cat := 90, proba_dog := 10, inference_time_ms := 5,
    rgpd_consent := true, filename := some ("cat.jpg"), user_feedback := none,
    user_comment := none }

/-- A store holding only `consentRecord`. -/
def consentStore : Store :=
  { records := [consentRecord], nextId := 1, clock := 1 }

/-- A successful predictor outcome. -/
def dogResult : PredictResult :=
  { prediction := "Dog", confidence := 9/10, prob_cat := 1/10,
    prob_dog := 9/10 }

/-- An image upload. -/
def catUpload : UploadFile :=
  { filename := "cat.jpg", content_type := "image/jpeg" }

/-! ## Helper lemmas -/

theorem update_feedback_consent_denied (ep : Bool) (fid : Nat)
    (ufb : Option Int) (ucm : Option String) (env : FeedbackEnv)
    (st : Store) (m : Metrics) (record : PredictionRecord)
    (hfind : findRecord st fid = some record)
    (hc : record.rgpd_consent = false) :
    update_feedback ep fid ufb ucm env st m =
      (.httpError 403
        ("Consentement RGPD non accepté. Impossible de stocker le feedback."),
       st, m) := by
  simp [update_feedback, hfind, hc]

/-! ## Claims -/

/-- Claim C3: for every /predict request on which the predictor invocation
raises, the caller receives a 500 carrying the original error text, and the
store gains exactly one record with success false, prediction_result
"error", both probabilities 0.0 and the error text as user_comment — or
gains nothing when the secondary write itself fails, that failure being
swallowed. -/
theorem C3_predictor_failure_record (ep : Bool) (file : UploadFile)
    (consent : Bool) (env : PredictEnv) (st : Store) (m : Metrics) (e : String)
    (himg : startswith file.content_type ("image/") = true)
    (herr : env.predictOutcome = .error e) :
    (predict_api ep true file consent env st m).1 =
      .httpError 500 ("Erreur de prédiction: " ++ e)
    ∧ (predict_api ep true file consent env st m).2.1.records =
        (if env.failureSaveRaises then st.records else
          { id := st.nextId, timestamp := st.clock, success := false,
            prediction_result := "error", proba_cat := 0, proba_dog := 0,
            inference_time_ms := env.inference_time_ms_err,
            rgpd_consent := false, filename := none, user_feedback := none,
            user_comment := some e } :: st.records) := by
  cases hsw : env.failureSaveRaises <;>
    simp [predict_api, predict_attempt,
      FeedbackService.save_prediction_feedback, himg, herr, hsw]

theorem C3_predictor_failure_record_witness :
    (predict_api true true catUpload true
      { predictOutcome := .error ("corrupt image"), inference_time_ms := 4,
        inference_time_ms_err := 9, trackPredictionRaises := none,
        trackInferenceTimeRaises := none, successSaveRaises := none,
        failureSaveRaises := false } emptyStore emptyMetrics).1 =
      .httpError 500 ("Erreur de prédiction: " ++ "corrupt image") :=
  (C3_predictor_failure_record true catUpload true
    { predictOutcome := .error ("corrupt image"), inference_time_ms := 4,
      inference_time_ms_err := 9, trackPredictionRaises := none,
      trackInferenceTimeRaises := none, successSaveRaises := none,
      failureSaveRaises := false } emptyStore emptyMetrics ("corrupt image")
    (by decide) rfl).1

/-- Claim C4: a feedback amendment whose feedback_id matches no record fails
with 404 and leaves the store and metrics unchanged; one whose target record
has rgpd_consent false fails with 403 regardless of the payload and leaves
the store and metrics unchanged; the NotFound check precedes the consent
check, so an unknown id yields 404 unconditionally. -/
theorem C4_amend_notfound_then_consent (ep : Bool) (fid : Nat)
    (ufb : Option Int) (ucm : Option String) (env : FeedbackEnv)
    (st : Store) (m : Metrics) :
    (findRecord st fid = none →
      update_feedback ep fid ufb ucm env st m =
        (.httpError 404 ("Enregistrement de feedback non trouvé"), st, m))
    ∧ (∀ record : PredictionRecord, findRecord st fid = some record →
        record.rgpd_consent = false →
        update_feedback ep fid ufb ucm env st m =
          (.httpError 403
            ("Consentement RGPD non accepté. Impossible de stocker le feedback."),
           st, m)) := by
  constructor
  · intro h
    simp [update_feedback, h]
  · intro record hfind hc
    exact update_feedback_consent_denied ep fid ufb ucm env st m record hfind hc

theorem C4_amend_notfound_then_consent_witness :
    update_feedback true 0 (some 1) (some ("great")) ⟨none, none⟩
      noConsentStore emptyMetrics =
      (.httpError 403
        ("Consentement RGPD non accepté. Impossible de stocker le feedback."),
       noConsentStore, emptyMetrics) :=
  (C4_amend_notfound_then_consent true 0 (some 1) (some ("great")) ⟨none, none⟩
    noConsentStore emptyMetrics).2 noConsentRecord (by decide) rfl

/-- Claim C6: when the predictor succeeds but the Feedback Store write of the
success record fails, the store failure propagates as a 500 whose detail
carries the store error text, and the caller receives no prediction body. -/
theorem C6_store_failure_propagates (ep : Bool) (file : UploadFile)
    (consent : Bool) (env : PredictEnv) (st : Store) (m : Metrics)
    (r : PredictResult) (e : String)
    (himg : startswith file.content_type ("image/") = true)
    (hok : env.predictOutcome = .ok r)
    (hm1 : (if ep then env.trackPredictionRaises else none) = none)
    (hm2 : (if ep then env.trackInferenceTimeRaises else none) = none)
    (hs : env.successSaveRaises = some e) :
    (predict_api ep true file consent env st m).1 =
      .httpError 500 ("Erreur de prédiction: " ++ e)
    ∧ isOk (predict_api ep true file consent env st m).1 = false := by
  simp [predict_api, predict_attempt, himg, hok, hm1, hm2, hs, isOk]

theorem C6_store_failure_propagates_witness :
    (predict_api false true catUpload true
      { predictOutcome := .ok dogResult,
        inference_time_ms := 21, inference_time_ms_err := 22,
        trackPredictionRaises := none, trackInferenceTimeRaises := none,
        successSaveRaises := some ("db unreachable"),
        failureSaveRaises := false } emptyStore emptyMetrics).1 =
      .httpError 500 ("Erreur de prédiction: " ++ "db unreachable") :=
  (C6_store_failure_propagates false catUpload true
    { predictOutcome := .ok dogResult,
      inference_time_ms := 21, inference_time_ms_err := 22,
      trackPredictionRaises := none, trackInferenceTimeRaises := none,
      successSaveRaises := some ("db unreachable"),
      failureSaveRaises := false } emptyStore emptyMetrics dogResult
    ("db unreachable") (by decide) rfl rfl rfl rfl).1

/-- Claim C10: a /predict request rejected in preflight (503 when the model
is not loaded, else 400 when the upload content type is not an image) leaves
the feedback store and all metrics unchanged. -/
theorem C10_preflight_pure (ep ml : Bool) (file : UploadFile) (consent : Bool)
    (env : PredictEnv) (st : Store) (m : Metrics)
    (h : ml = false ∨ startswith file.content_type ("image/") = false) :
    (predict_api ep ml file consent env st m).2.1 = st
    ∧ (predict_api ep ml file consent env st m).2.2 = m
    ∧ (predict_api ep ml file consent env st m).1 =
        (if ml = false then .httpError 503 ("Modèle non disponible")
         else .httpError 400 ("Format d\x27image invalide")) := by
  cases ml with
  | false => simp [predict_api]
  | true =>
    rcases h with h | h
    · exact absurd h (by simp)
    · simp [predict_api, h]

theorem C10_preflight_pure_witness :
    (predict_api true false ⟨"a.txt", "text/plain"⟩ true
      { predictOutcome := .error ("unused"), inference_time_ms := 0,
        inference_time_ms_err := 0, trackPredictionRaises := none,
        trackInferenceTimeRaises := none, successSaveRaises := none,
        failureSaveRaises := false } emptyStore emptyMetrics).2.1 = emptyStore :=
  (C10_preflight_pure true false ⟨"a.txt", "text/plain"⟩ true
    { predictOutcome := .error ("unused"), inference_time_ms := 0,
      inference_time_ms_err := 0, trackPredictionRaises := none,
      trackInferenceTimeRaises := none, successSaveRaises := none,
      failureSaveRaises := false } emptyStore emptyMetrics (Or.inl rfl)).1

/-- Claim C1 counterexample: with Prometheus enabled, the predictor
succeeding and only `track_prediction` raising, the /predict caller receives
a 500 error, not the normal 200 prediction response the claim promises. -/
theorem C1_counterexample :
    (predict_api true true catUpload true
      { predictOutcome := .ok dogResult,
        inference_time_ms := 12, inference_time_ms_err := 13,
        trackPredictionRaises := some ("prometheus down"),
        trackInferenceTimeRaises := none, successSaveRaises := none,
        failureSaveRaises := false } emptyStore emptyMetrics).1 =
      .httpError 500 ("Erreur de prédiction: prometheus down")
    ∧ isOk (predict_api true true catUpload true
        { predictOutcome := .ok dogResult,
          inference_time_ms := 12, inference_time_ms_err := 13,
          trackPredictionRaises := some ("prometheus down"),
          trackInferenceTimeRaises := none, successSaveRaises := none,
          failureSaveRaises := false } emptyStore emptyMetrics).1 = false := by
  constructor
  · rfl
  · rfl

/-- Claim C1 (amended): a Metrics Sink update failure inside /predict is not
recovered locally: the metrics calls sit inside the same try block as the
predictor, so when the predictor succeeds and a metrics update raises —
whether track_prediction raises, or track_prediction succeeds and only
track_inference_time raises — the generic failure handler answers with a 500
carrying the metric error text and no prediction body, after a best-effort
failure-record write (the store gains one failure record carrying the metric
error text, or nothing when that secondary write itself fails). -/
theorem C1_metrics_failure_surfaced (file : UploadFile) (consent : Bool)
    (env : PredictEnv) (st : Store) (m : Metrics) (r : PredictResult)
    (e : String)
    (himg : startswith file.content_type ("image/") = true)
    (hok : env.predictOutcome = .ok r)
    (htr : env.trackPredictionRaises = some e ∨
      (env.trackPredictionRaises = none ∧
        env.trackInferenceTimeRaises = some e)) :
    (predict_api true true file consent env st m).1 =
      .httpError 500 ("Erreur de prédiction: " ++ e)
    ∧ isOk (predict_api true true file consent env st m).1 = false
    ∧ (predict_api true true file consent env st m).2.1.records =
        (if env.failureSaveRaises then st.records else
          { id := st.nextId, timestamp := st.clock, success := false,
            prediction_result := "error", proba_cat := 0, proba_dog := 0,
            inference_time_ms := env.inference_time_ms_err,
            rgpd_consent := false, filename := none, user_feedback := none,
            user_comment := some e } :: st.records) := by
  rcases htr with htr | ⟨htr1, htr2⟩
  · cases hsw : env.failureSaveRaises <;>
      simp [predict_api, predict_attempt,
        FeedbackService.save_prediction_feedback, isOk, himg, hok, hsw, htr]
  · cases hsw : env.failureSaveRaises <;>
      simp [predict_api, predict_attempt,
        FeedbackService.save_prediction_feedback, isOk, himg, hok, hsw,
        htr1, htr2]

theorem C1_metrics_failure_surfaced_witness :
    (predict_api true true catUpload false
      { predictOutcome := .ok dogResult,
        inference_time_ms := 5, inference_time_ms_err := 6,
        trackPredictionRaises := none,
        trackInferenceTimeRaises := some ("prometheus down"),
        successSaveRaises := none,
        failureSaveRaises := false } emptyStore emptyMetrics).1 =
      .httpError 500 ("Erreur de prédiction: " ++ "prometheus down")
    ∧ (predict_api true true catUpload false
        { predictOutcome := .ok dogResult,
          inference_time_ms := 5, inference_time_ms_err := 6,
          trackPredictionRaises := none,
          trackInferenceTimeRaises := some ("prometheus down"),
          successSaveRaises := none,
          failureSaveRaises := false } emptyStore emptyMetrics).2.1.records =
        [{ id := 0, timestamp := 0, success := false,
           prediction_result := "error", proba_cat := 0, proba_dog := 0,
           inference_time_ms := 6, rgpd_consent := false, filename := none,
           user_feedback := none,
           user_comment := some ("prometheus down") }] :=
  ⟨(C1_metrics_failure_surfaced catUpload false
      { predictOutcome := .ok dogResult,
        inference_time_ms := 5, inference_time_ms_err := 6,
        trackPredictionRaises := none,
        trackInferenceTimeRaises := some ("prometheus down"),
        successSaveRaises := none,
        failureSaveRaises := false } emptyStore emptyMetrics dogResult
      ("prometheus down") (by decide) rfl (Or.inr ⟨rfl, rfl⟩)).1,
   (C1_metrics_failure_surfaced catUpload false
      { predictOutcome := .ok dogResult,
        inference_time_ms := 5, inference_time_ms_err := 6,
        trackPredictionRaises := none,
        trackInferenceTimeRaises := some ("prometheus down"),
        successSaveRaises := none,
        failureSaveRaises := false } emptyStore emptyMetrics dogResult
      ("prometheus down") (by decide) rfl (Or.inr ⟨rfl, rfl⟩)).2.2⟩

/-- Claim C2 counterexample: a /predict request with rgpd_consent false and a
successful prediction answers with a 200 body whose filename field carries
the uploaded filename, so the filename is disclosed in the /predict response
itself. -/
theorem C2_counterexample :
    respFilename (predict_api false true
      { filename := "private_cat.jpg", content_type := "image/jpeg" } false
      { predictOutcome := .ok dogResult,
        inference_time_ms := 7, inference_time_ms_err := 8,
        trackPredictionRaises := none, trackInferenceTimeRaises := none,
        successSaveRaises := none, failureSaveRaises := false }
      emptyStore emptyMetrics).1 = some ("private_cat.jpg") := by
  rfl

/-- Claim C2 (amended): with rgpd_consent false the uploaded filename is
never stored in the created PredictionRecord and never disclosed by
/api/recent-predictions (whose serialization nulls filename for records
without consent); the /predict response body, however, echoes the uploaded
filename back unconditionally. -/
theorem C2_consentless_storage_redaction (ep : Bool) (file : UploadFile)
    (env : PredictEnv) (st : Store) (m : Metrics) (r : PredictResult)
    (himg : startswith file.content_type ("image/") = true)
    (hok : env.predictOutcome = .ok r)
    (hm1 : (if ep then env.trackPredictionRaises else none) = none)
    (hm2 : (if ep then env.trackInferenceTimeRaises else none) = none)
    (hs : env.successSaveRaises = none) :
    ((predict_api ep true file false env st m).2.1.records.head?).map
        PredictionRecord.filename = some none
    ∧ (∀ (st2 : Store) (limit : Nat) (entry : RecentEntry),
        entry ∈ (get_recent_predictions_api st2 limit).1 →
        entry.rgpd_consent = false → entry.filename = none) := by
  constructor
  · simp [predict_api, predict_attempt,
      FeedbackService.save_prediction_feedback, himg, hok, hm1, hm2, hs]
  · intro st2 limit entry hmem hc
    simp [get_recent_predictions_api, List.mem_map] at hmem
    obtain ⟨pred, hp, he⟩ := hmem
    subst he
    simp at hc
    simp [hc]

theorem C2_consentless_storage_redaction_witness :
    ((predict_api true true catUpload false
      { predictOutcome := .ok dogResult,
        inference_time_ms := 7, inference_time_ms_err := 8,
        trackPredictionRaises := none, trackInferenceTimeRaises := none,
        successSaveRaises := none, failureSaveRaises := false }
      emptyStore emptyMetrics).2.1.records.head?).map
        PredictionRecord.filename = some none :=
  (C2_consentless_storage_redaction true catUpload
    { predictOutcome := .ok dogResult,
      inference_time_ms := 7, inference_time_ms_err := 8,
      trackPredictionRaises := none, trackInferenceTimeRaises := none,
      successSaveRaises := none, failureSaveRaises := false }
    emptyStore emptyMetrics dogResult (by decide) rfl rfl rfl rfl).1

/-- Claim C8 counterexample: with Prometheus enabled, amending a consented
record with user_feedback 1 while db.commit raises yields a 500 — the
amendment does not commit — yet the Metrics Sink feedback counter has been
incremented with polarity positive, refuting that the counter is updated
only on success of the amendment. -/
theorem C8_counterexample :
    (update_feedback true 0 (some 1) none ⟨none, some ("db down")⟩
      consentStore emptyMetrics).1 =
      .httpError 500 ("Erreur lors de la mise à jour: db down")
    ∧ ((update_feedback true 0 (some 1) none ⟨none, some ("db down")⟩
        consentStore emptyMetrics).2.2).feedback_events = ["positive"] := by
  constructor
  · rfl
  · rfl

/-- Claim C8 (amended): when user_feedback is supplied and the target record
passes the NotFound and consent checks (and track_feedback itself does not
raise), the Metrics Sink feedback counter is updated before db.commit — so
it is updated whether or not the commit succeeds — with polarity positive
when user_feedback is 1 and negative for any other value. -/
theorem C8_feedback_counter_pre_commit (fid : Nat) (v : Int)
    (ucm : Option String) (env : FeedbackEnv) (st : Store) (m : Metrics)
    (record : PredictionRecord)
    (hfind : findRecord st fid = some record)
    (hc : record.rgpd_consent = true)
    (htf : env.trackFeedbackRaises = none) :
    (update_feedback true fid (some v) ucm env st m).2.2 =
      track_feedback (if v == 1 then "positive" else "negative") m := by
  cases hcm : env.commitRaises <;>
    simp [update_feedback, hfind, hc, htf, hcm]

theorem C8_feedback_counter_pre_commit_witness :
    (update_feedback true 0 (some 2) none ⟨none, some ("db down")⟩
      consentStore emptyMetrics).2.2 =
      track_feedback (if (2 : Int) == 1 then "positive" else "negative")
        emptyMetrics :=
  C8_feedback_counter_pre_commit 0 2 none ⟨none, some ("db down")⟩
    consentStore emptyMetrics consentRecord (by decide) rfl rfl

/-- Claim C9: every PredictionRecord created by the failure path of /predict
has rgpd_consent false, and any feedback amendment targeting a record with
rgpd_consent false fails with 403 ConsentDenied leaving the store and the
metrics unchanged — so no record produced by a failed inference can ever be
amended. -/
theorem C9_failure_records_unamendable (ep : Bool) (file : UploadFile)
    (consent : Bool) (env : PredictEnv) (st : Store) (m : Metrics) (e : String)
    (himg : startswith file.content_type ("image/") = true)
    (herr : env.predictOutcome = .error e)
    (hw : env.failureSaveRaises = false) :
    ((predict_api ep true file consent env st m).2.1.records.head?).map
        PredictionRecord.rgpd_consent = some false
    ∧ (∀ (ep2 : Bool) (fid : Nat) (ufb : Option Int) (ucm : Option String)
        (fenv : FeedbackEnv) (st2 : Store) (m2 : Metrics)
        (record : PredictionRecord),
        findRecord st2 fid = some record → record.rgpd_consent = false →
        update_feedback ep2 fid ufb ucm fenv st2 m2 =
          (.httpError 403
            ("Consentement RGPD non accepté. Impossible de stocker le feedback."),
           st2, m2)) := by
  constructor
  · simp [predict_api, predict_attempt,
      FeedbackService.save_prediction_feedback, himg, herr, hw]
  · intro ep2 fid ufb ucm fenv st2 m2 record hfind hc
    exact update_feedback_consent_denied ep2 fid ufb ucm fenv st2 m2 record
      hfind hc

theorem C9_failure_records_unamendable_witness :
    ((predict_api true true catUpload true
      { predictOutcome := .error ("inference blew up"),
        inference_time_ms := 2, inference_time_ms_err := 3,
        trackPredictionRaises := none, trackInferenceTimeRaises := none,
        successSaveRaises := none, failureSaveRaises := false }
      emptyStore emptyMetrics).2.1.records.head?).map
        PredictionRecord.rgpd_consent = some false :=
  (C9_failure_records_unamendable true catUpload true
    { predictOutcome := .error ("inference blew up"),
      inference_time_ms := 2, inference_time_ms_err := 3,
      trackPredictionRaises := none, trackInferenceTimeRaises := none,
      successSaveRaises := none, failureSaveRaises := false }
    emptyStore emptyMetrics ("inference blew up") (by decide) rfl rfl).1

/-- The degraded database status string never equals "connected", whatever
the probe error text. -/
theorem error_ne_connected (e : String) : ("error: " ++ e) ≠ ("connected") := by
  intro h
  have h1 : ("error: ").data ++ e.data = ("connected").data :=
    congrArg String.data h
  have h2 : ("error: ").data = ['e', 'r', 'r', 'o', 'r', ':', ' '] := rfl
  have h3 : ("connected").data =
      ['c', 'o', 'n', 'n', 'e', 'c', 't', 'e', 'd'] := rfl
  rw [h2, h3] at h1
  simp at h1

/-- Claim C7: health_check is total over every environment — database probe,
alert delivery and metrics gauge failures included, none propagates — and
always answers with status healthy precisely when the probe succeeded and
degraded otherwise, with a database field equal to "connected" on success
and carrying an error indicator otherwise, and with a model_loaded field
equal to the predictor state regardless of the database outcome. -/
theorem C7_health_response (ep ed ml : Bool) (env : HealthEnv) (m : Metrics)
    (ns : NotifierState) :
    (health_check ep ed ml env m ns).1.status =
      (match env.dbProbe with
       | .ok _ => "healthy"
       | .error _ => "degraded")
    ∧ (health_check ep ed ml env m ns).1.model_loaded = ml
    ∧ (health_check ep ed ml env m ns).1.database =
      (match env.dbProbe with
       | .ok _ => "connected"
       | .error e => "error: " ++ e) := by
  cases hpr : env.dbProbe with
  | ok u =>
    cases ed <;> cases ep <;> cases hpu : env.promUpdateRaises <;>
      simp [health_check, hpr, hpu]
  | error e =>
    cases ed <;> cases hal : env.alertRaises <;> cases ep <;>
      cases hpu : env.promUpdateRaises <;>
      simp [health_check, alert_database_disconnected, hpr, hal, hpu,
        error_ne_connected e]

/-- In the disconnected notifier state a health check never fires the alert
and leaves the notifier state unchanged. -/
theorem health_check_disconnected_inert (ep ed ml : Bool) (env : HealthEnv)
    (m : Metrics) :
    (health_check ep ed ml env m ⟨true⟩).2.2.1 = ⟨true⟩
    ∧ (health_check ep ed ml env m ⟨true⟩).2.2.2 = false := by
  cases hpr : env.dbProbe <;> cases ed <;> cases hal : env.alertRaises <;>
    simp [health_check, alert_database_disconnected, hpr, hal]

/-- From the disconnected notifier state no alert is ever fired again. -/
theorem run_health_disconnected (ep ed ml : Bool) (es : List HealthEnv) :
    ∀ m : Metrics, (run_health ep ed ml es m ⟨true⟩).2.2 = 0 := by
  induction es with
  | nil =>
    intro m
    simp [run_health]
  | cons env rest ih =>
    intro m
    have h := health_check_disconnected_inert ep ed ml env m
    simp [run_health, h.1, h.2]
    exact ih _

/-- One observed transition costs at most one against the bound when the
previous observation changes from connected to disconnected. -/
theorem countTransitions_mono (es : List HealthEnv) :
    countTransitions true es ≤ 1 + countTransitions false es := by
  cases es with
  | nil => simp [countTransitions]
  | cons env rest =>
    simp [countTransitions]
    cases probeOk env <;> simp

/-- Across any run of health probes that starts in the connected notifier
state, the alerts fired never exceed the observed connected-to-disconnected
transitions. -/
theorem run_health_alert_bound (ep ml : Bool) (es : List HealthEnv) :
    ∀ m : Metrics,
      (run_health ep true ml es m ⟨false⟩).2.2 ≤ countTransitions true es := by
  induction es with
  | nil =>
    intro m
    simp [run_health, countTransitions]
  | cons env rest ih =>
    intro m
    cases hpr : env.dbProbe with
    | ok u =>
      have hok : probeOk env = true := by simp [probeOk, hpr]
      simp [run_health, health_check, hpr, countTransitions, hok]
      exact ih _
    | error e =>
      have hko : probeOk env = false := by simp [probeOk, hpr]
      cases hal : env.alertRaises with
      | some s =>
        simp [run_health, health_check, hpr, hal, countTransitions, hko]
        exact le_trans (ih _) (countTransitions_mono rest)
      | none =>
        simp [run_health, health_check, hpr, hal,
          alert_database_disconnected, countTransitions, hko]
        have h0 := run_health_disconnected ep true ml rest
        simp [h0]

/-- Claim C5 (under the spec-modelled notifier): across any sequence of
health probes starting from the connected notifier state, the alerts fired
never exceed the observed transitions from connected into disconnected, so
the alert is fired at most once per transition and not on every probe that
still finds the database disconnected; concretely, two successive failing
probes fire exactly one alert. -/
theorem C5_alert_once_per_transition :
    (∀ (ep ml : Bool) (es : List HealthEnv) (m : Metrics),
      (run_health ep true ml es m ⟨false⟩).2.2 ≤ countTransitions true es)
    ∧ (run_health false true false
        [⟨.error ("db down"), none, none⟩, ⟨.error ("db down"), none, none⟩]
        emptyMetrics ⟨false⟩).2.2 = 1 := by
  constructor
  · intro ep ml es m
    exact run_health_alert_bound ep ml es m
  · rfl
